import Mathlib

/-!
Verification development for the `ezwin` window crate.

The embedding follows `src/window.rs` (the revision containing
`Window::next_message`, `Window::message_pump`, `Window::take_message`, the
setters and `Window::new`).  Modules that `window.rs` declares but whose files
are not present in the repository snapshot (`stage`, `state`, `command`,
`procedure`, and the `message` variant used by `window.rs`) are modelled from
the spec and from how `window.rs` uses them; each such definition carries a
doc comment saying so.
-/

namespace Ezwin

/-- Lifecycle stage of one window.  The `stage` module file is absent; the
variants are exactly the ones covered by the exhaustive match in
`Window::next_message` (window.rs:347-368): `Setup`, `Ready`, `Looping`,
`Closing`, `ExitLoop`.  This revision has no `Destroyed` variant. -/
inductive Stage
  | setup
  | ready
  | looping
  | closing
  | exitLoop
  deriving DecidableEq

/-- Flow policy (`state` module, modelled from the spec §3): `Wait` blocks for
the next event, `Poll` returns immediately. -/
inductive Flow
  | wait
  | poll
  deriving DecidableEq

/-- Theme (`state` module file absent; variants from the match in
`Window::force_set_theme`, window.rs:609-625). -/
inductive Theme
  | auto
  | dark
  | light
  deriving DecidableEq

/-- Visibility (`state` module, modelled from the spec). -/
inductive Visibility
  | shown
  | hidden
  deriving DecidableEq

/-- Modelled from the spec: cursor mode (`state` module file absent). -/
inductive CursorMode
  | normal
  | confined
  deriving DecidableEq

/-- Modelled from the spec: fullscreen descriptor (`state` module file
absent). -/
inductive Fullscreen
  | borderless
  deriving DecidableEq

/-- Physical position in pixels (`PhysicalPosition { x: i32, y: i32 }`). -/
structure PhysicalPosition where
  x : Int
  y : Int
  deriving DecidableEq

/-- Physical size in pixels (`PhysicalSize { width: u32, height: u32 }`). -/
structure PhysicalSize where
  width : Nat
  height : Nat
  deriving DecidableEq

/-- Modelled from the spec: DPI / logical-to-physical conversion is out of
scope (§1, §6 treat DPI adjustment as an external collaborator), so `Position`
is identified with its physical value and `as_physical` is the identity. -/
abbrev Position := PhysicalPosition

/-- Modelled from the spec: see `Position`. -/
abbrev Size := PhysicalSize

/-- `Position::as_physical`, modelled as the identity (DPI out of scope). -/
def Position.as_physical (p : Position) : PhysicalPosition := p

/-- `Size::as_physical`, modelled as the identity (DPI out of scope). -/
def Size.as_physical (s : Size) : PhysicalSize := s

/-- Loop-control messages; the `message` module variant used by `window.rs` is
absent, variants taken from its uses there: `LoopMessage::GetMessage`
(window.rs:309), `LoopMessage::Exit` (window.rs:362), `LoopMessage::Empty`
(window.rs:339). -/
inductive LoopMessage
  | getMessage
  | exit
  | empty
  deriving DecidableEq

/-- Translated event delivered to the application.  The `message` module
variant used by `window.rs` is absent; variants are taken from its uses in
`window.rs` (`Message::Loop`, `Message::CloseRequested`) together with the
event names in the sibling revision `src/window/message.rs` and spec §6
(`Closing`, `Closed`, `Draw`, `Moved`). -/
inductive Message
  | loopMsg (m : LoopMessage)
  | closeRequested
  | closing
  | closed
  | draw
  | moved
  deriving DecidableEq

/-- Commands queued for the platform thread.  The `command` module file is
absent; variants from the posts in `window.rs` plus the list in spec §3. -/
inductive Command
  | setPosition (p : Position)
  | setSize (s : Size)
  | setVisibility (v : Visibility)
  | setDecorations (v : Visibility)
  | setTheme (t : Theme)
  | setFullscreen (f : Option Fullscreen)
  | setCursorMode (m : CursorMode)
  | setCursorVisibility (v : Visibility)
  | setWindowText (t : String)
  | redraw
  | close
  | destroy
  deriving DecidableEq

/-- Observable native interaction performed by the handle: either a `Command`
posted to the platform thread (`Command::post`) or the direct
`DwmSetWindowAttribute` dark-mode call made by `force_set_theme`
(window.rs:629-638). -/
inductive Effect
  | posted (c : Command)
  | dwmSetDarkMode (dark : Bool)
  deriving DecidableEq

/-- Style flags (`StyleInfo`, fields from the initializer in `Window::new`,
window.rs:171-176). -/
structure StyleInfo where
  visibility : Visibility
  decorations : Visibility
  fullscreen : Option Fullscreen
  resizeable : Bool
  deriving DecidableEq

/-- Cursor state (`state` module; fields from `cursor.mode` / `cursor.visibility`
accesses in window.rs:676, 688). -/
structure CursorInfo where
  mode : CursorMode
  visibility : Visibility
  deriving DecidableEq

/-- Mutex-guarded shared state (`InternalState`; the `state` module file is
absent, fields taken from the accesses in `window.rs`: `title`, `subtitle`,
`theme`, `style`, `cursor`, `flow`, `close_on_x`, `stage`,
`requested_redraw`).  The input table, scale factor and thread handle are not
modelled (no claim depends on them; DPI is out of scope per spec §1). -/
structure InternalState where
  title : String
  subtitle : String
  theme : Theme
  style : StyleInfo
  cursor : CursorInfo
  flow : Flow
  close_on_x : Bool
  stage : Stage
  requested_redraw : Bool
  deriving DecidableEq

/-- Modelled from the spec: the native environment read by the handle —
`is_system_dark_mode_enabled` / `is_dark_mode_supported` (`utilities` module,
absent) and the live window rectangle returned by `GetWindowRect`
(read by `outer_position` / `outer_size`, window.rs:395-420). -/
structure NativeEnv where
  systemDarkMode : Bool
  darkModeSupported : Bool
  outerPos : PhysicalPosition
  outerSize : PhysicalSize
  deriving DecidableEq

/-- The window handle: shared `InternalState`, the single-slot mailbox
(`message: Arc<Mutex<Option<Message>>>`), the two handshake gate booleans of
`SyncData` (`procedure` module, modelled from spec §4.2), the native
environment, and the trace of native interactions (`effects`). -/
structure Window where
  state : InternalState
  message : Option Message
  new_message : Bool
  next_frame : Bool
  env : NativeEnv
  effects : List Effect
  deriving DecidableEq

/-- `Command::post`: enqueue a command for the platform thread (recorded on
the effect trace). -/
def Window.post (w : Window) (c : Command) : Window :=
  { w with effects := w.effects ++ [Effect.posted c] }

/-- The commands posted so far, extracted from the effect trace. -/
def Window.postedCommands (w : Window) : List Command :=
  w.effects.filterMap fun e =>
    match e with
    | Effect.posted c => some c
    | Effect.dwmSetDarkMode _ => none

/-- `SyncData::signal_next_frame`, modelled from spec §4.2: set the
`next_frame` gate boolean. -/
def Window.signal_next_frame (w : Window) : Window :=
  { w with next_frame := true }

/-- `SyncData::signal_new_message`, modelled from spec §4.2: set the
`new_message` gate boolean. -/
def Window.signal_new_message (w : Window) : Window :=
  { w with new_message := true }

/-- `InternalState::is_closing`; the `state` module file is absent.  Modelled
from the spec: close is a "no-op if already closing or past" (§4.4), so it
holds in `Closing` and in the only later stage, `ExitLoop`. -/
def Window.is_closing (w : Window) : Bool :=
  w.state.stage = Stage.closing || w.state.stage = Stage.exitLoop

/-- `Window::close` (window.rs:728-733): no-op when already closing,
otherwise set the stage to `Closing`.  Posts no command. -/
def Window.close (w : Window) : Window :=
  if w.is_closing then w
  else { w with state := { w.state with stage := Stage.closing } }

/-- `Window::exit_loop` (window.rs:735-738): force the stage to `ExitLoop`
and signal `next_frame`. -/
def Window.exit_loop (w : Window) : Window :=
  Window.signal_next_frame { w with state := { w.state with stage := Stage.exitLoop } }

-- SETTERS (window.rs:517-725)

/-- `Window::force_set_outer_position` (window.rs:519-522): posts
`SetPosition`; the shared-state write is commented out in the source. -/
def Window.force_set_outer_position (w : Window) (p : Position) : Window :=
  w.post (Command.setPosition p)

/-- `Window::set_outer_position` (window.rs:524-530): compares the requested
physical position against the live native rectangle (`GetWindowRect`). -/
def Window.set_outer_position (w : Window) (p : Position) : Window :=
  if p.as_physical = w.env.outerPos then w
  else w.force_set_outer_position p

/-- `Window::force_set_outer_size` (window.rs:532-535): posts `SetSize`; the
shared-state write is commented out in the source. -/
def Window.force_set_outer_size (w : Window) (s : Size) : Window :=
  w.post (Command.setSize s)

/-- `Window::set_outer_size` (window.rs:537-544): compares against the live
native rectangle. -/
def Window.set_outer_size (w : Window) (s : Size) : Window :=
  if s.as_physical = w.env.outerSize then w
  else w.force_set_outer_size s

/-- `Window::force_set_visibility` (window.rs:584-587). -/
def Window.force_set_visibility (w : Window) (v : Visibility) : Window :=
  Window.post
    { w with state := { w.state with style := { w.state.style with visibility := v } } }
    (Command.setVisibility v)

/-- `Window::set_visibility` (window.rs:589-594). -/
def Window.set_visibility (w : Window) (v : Visibility) : Window :=
  if v = w.state.style.visibility then w
  else w.force_set_visibility v

/-- `Window::force_set_decorations` (window.rs:596-599). -/
def Window.force_set_decorations (w : Window) (v : Visibility) : Window :=
  Window.post
    { w with state := { w.state with style := { w.state.style with decorations := v } } }
    (Command.setDecorations v)

/-- `Window::set_decorations` (window.rs:601-606). -/
def Window.set_decorations (w : Window) (v : Visibility) : Window :=
  if v = w.state.style.decorations then w
  else w.force_set_decorations v

/-- The theme resolution match at the head of `force_set_theme`
(window.rs:609-625): `Auto` resolves from the system dark-mode setting,
`Dark` falls back to `Light` when dark mode is unsupported. -/
def resolveTheme (env : NativeEnv) : Theme → Theme
  | Theme.auto => if env.systemDarkMode then Theme.dark else Theme.light
  | Theme.dark => if env.darkModeSupported then Theme.dark else Theme.light
  | Theme.light => Theme.light

/-- `Window::force_set_theme` (window.rs:608-639): resolve the theme, store
the resolved value in shared state, then call `DwmSetWindowAttribute`
directly.  No command is posted. -/
def Window.force_set_theme (w : Window) (t : Theme) : Window :=
  let t1 := resolveTheme w.env t
  { w with
    state := { w.state with theme := t1 },
    effects := w.effects ++ [Effect.dwmSetDarkMode (t1 = Theme.dark)] }

/-- `Window::set_theme` (window.rs:641-646). -/
def Window.set_theme (w : Window) (t : Theme) : Window :=
  if t = w.state.theme then w
  else w.force_set_theme t

/-- `Window::force_set_fullscreen` (window.rs:648-651). -/
def Window.force_set_fullscreen (w : Window) (f : Option Fullscreen) : Window :=
  Window.post
    { w with state := { w.state with style := { w.state.style with fullscreen := f } } }
    (Command.setFullscreen f)

/-- `Window::set_fullscreen` (window.rs:653-658). -/
def Window.set_fullscreen (w : Window) (f : Option Fullscreen) : Window :=
  if f = w.state.style.fullscreen then w
  else w.force_set_fullscreen f

/-- `Window::force_set_title` (window.rs:660-665): store the title and post
`SetWindowText` of title ++ subtitle. -/
def Window.force_set_title (w : Window) (t : String) : Window :=
  Window.post
    { w with state := { w.state with title := t } }
    (Command.setWindowText (t ++ w.state.subtitle))

/-- `Window::set_title` (window.rs:668-673). -/
def Window.set_title (w : Window) (t : String) : Window :=
  if t = w.state.title then w
  else w.force_set_title t

/-- `Window::force_set_cursor_mode` (window.rs:675-678). -/
def Window.force_set_cursor_mode (w : Window) (m : CursorMode) : Window :=
  Window.post
    { w with state := { w.state with cursor := { w.state.cursor with mode := m } } }
    (Command.setCursorMode m)

/-- `Window::set_cursor_mode` (window.rs:680-685). -/
def Window.set_cursor_mode (w : Window) (m : CursorMode) : Window :=
  if m = w.state.cursor.mode then w
  else w.force_set_cursor_mode m

/-- `Window::force_set_cursor_visibility` (window.rs:687-690). -/
def Window.force_set_cursor_visibility (w : Window) (v : Visibility) : Window :=
  Window.post
    { w with state := { w.state with cursor := { w.state.cursor with visibility := v } } }
    (Command.setCursorVisibility v)

/-- `Window::set_cursor_visibility` (window.rs:692-697). -/
def Window.set_cursor_visibility (w : Window) (v : Visibility) : Window :=
  if v = w.state.cursor.visibility then w
  else w.force_set_cursor_visibility v

/-- `Window::force_set_subtitle` (window.rs:699-704). -/
def Window.force_set_subtitle (w : Window) (s : String) : Window :=
  Window.post
    { w with state := { w.state with subtitle := s } }
    (Command.setWindowText (w.state.title ++ s))

/-- `Window::set_subtitle` (window.rs:707-712). -/
def Window.set_subtitle (w : Window) (s : String) : Window :=
  if s = w.state.subtitle then w
  else w.force_set_subtitle s

/-- `Window::force_request_redraw` (window.rs:714-717). -/
def Window.force_request_redraw (w : Window) : Window :=
  Window.post
    { w with state := { w.state with requested_redraw := true } }
    Command.redraw

/-- `Window::request_redraw` (window.rs:720-725). -/
def Window.request_redraw (w : Window) : Window :=
  if w.state.requested_redraw then w
  else w.force_request_redraw

-- MESSAGE CONSUMPTION (window.rs:325-371)

/-- Outcome of one `take_message` call: either the call is blocked in the
`Flow::Wait` condvar wait (`new_message` not yet set), or it returns a
message together with the updated handle. -/
inductive TakeResult
  | blocked
  | took (m : Message) (w : Window)
  deriving DecidableEq

/-- `Window::take_message` (window.rs:325-340): read the flow; under
`Flow::Wait` wait until `new_message` is set and clear it (modelled as
`blocked` while the gate is down); then take the mailbox value, falling back
to `LoopMessage::Empty` when the mailbox is empty.  `Flow::Poll` touches no
gate. -/
def Window.take_message (w : Window) : TakeResult :=
  match w.state.flow with
  | Flow.wait =>
    if w.new_message then
      TakeResult.took (w.message.getD (Message.loopMsg LoopMessage.empty))
        { w with new_message := false, message := none }
    else TakeResult.blocked
  | Flow.poll =>
    TakeResult.took (w.message.getD (Message.loopMsg LoopMessage.empty))
      { w with message := none }

/-- Outcome of one `next_message` call: blocked inside `take_message`, or
completed with the returned `Option<Message>` and the updated handle. -/
inductive NextResult
  | blocked
  | done (m : Option Message) (w : Window)
  deriving DecidableEq

/-- `Window::next_message` (window.rs:342-371): read the stage, signal
`next_frame`, then dispatch on the stage: `Setup`/`Ready` yield `None`
without iterating; `Looping` takes a message and runs `close()` when it is
`CloseRequested` and `close_on_x` is set; `Closing` discards one message,
runs `exit_loop` and yields `Some(Loop(Exit))`; `ExitLoop` yields `None`. -/
def Window.next_message (w : Window) : NextResult :=
  let current := w.state.stage
  let w1 := w.signal_next_frame
  match current with
  | Stage.setup => NextResult.done none w1
  | Stage.ready => NextResult.done none w1
  | Stage.looping =>
    match w1.take_message with
    | TakeResult.blocked => NextResult.blocked
    | TakeResult.took m w2 =>
      let w3 := if m = Message.closeRequested && w2.state.close_on_x then w2.close else w2
      NextResult.done (some m) w3
  | Stage.closing =>
    match w1.take_message with
    | TakeResult.blocked => NextResult.blocked
    | TakeResult.took _ w2 => NextResult.done (some (Message.loopMsg LoopMessage.exit)) w2.exit_loop
  | Stage.exitLoop => NextResult.done none w1

/-- The handle state after a `next_message` call; a blocked call has already
signalled `next_frame` but changed nothing else. -/
def Window.next_message_state (w : Window) : Window :=
  match w.next_message with
  | NextResult.blocked => w.signal_next_frame
  | NextResult.done _ w1 => w1

/-- The list of results of `n` consecutive completed `next_message` calls
(stops early if a call blocks, which never happens under `Flow::Poll`). -/
def pollRun : Window → Nat → List (Option Message)
  | _, 0 => []
  | w, n + 1 =>
    match w.next_message with
    | NextResult.blocked => []
    | NextResult.done r w1 => r :: pollRun w1 n

/-- `Window::iter` / `Window::iter_mut` (window.rs:790-837): starting
iteration moves `Ready` to `Looping`; every other stage is left unchanged
(with a log message). -/
def Window.iter (w : Window) : Window :=
  match w.state.stage with
  | Stage.ready => { w with state := { w.state with stage := Stage.looping } }
  | _ => w

/-- `Drop for Window` (window.rs:112-130): force `exit_loop`, then post
`Command::Destroy` (the join of the platform thread has no effect on the
modelled state). -/
def Window.dropWindow (w : Window) : Window :=
  Window.post w.exit_loop Command.destroy

-- CONSTRUCTION (window.rs:145-204)

/-- Builder settings; the `WindowSettings` revision used by `window.rs` is
absent (the present `settings.rs` is a sibling revision), fields taken from
the uses in `Window::new` (title, size, position, flow, theme, visibility,
decorations, fullscreen, resizeable, cursor_mode, close_on_x). -/
structure WindowSettings where
  title : String
  size : Size
  position : Option Position
  flow : Flow
  theme : Theme
  visibility : Visibility
  decorations : Visibility
  fullscreen : Option Fullscreen
  resizeable : Bool
  cursorMode : CursorMode
  close_on_x : Bool
  deriving DecidableEq

/-- Modelled from the spec: the handle as handed back by the platform thread
after native creation (`create_hwnd` / `wnd_proc`, the latter absent), before
`Window::new` applies the initial settings: shared state populated from the
settings and `CreateInfo.style` (window.rs:163-177), stage `Setup`
(spec §4.1: `Setup`/`Ready` precede first event consumption), mailbox empty,
both gates down, no commands posted yet. -/
def initialWindow (s : WindowSettings) (env : NativeEnv) : Window :=
  { state :=
      { title := s.title
        subtitle := ""
        theme := s.theme
        style :=
          { visibility := s.visibility
            decorations := s.decorations
            fullscreen := s.fullscreen
            resizeable := s.resizeable }
        cursor := { mode := s.cursorMode, visibility := Visibility.shown }
        flow := s.flow
        close_on_x := s.close_on_x
        stage := Stage.setup
        requested_redraw := false }
    message := none
    new_message := false
    next_frame := false
    env := env
    effects := [] }

/-- The initial-settings block of `Window::new` (window.rs:190-197): the six
force setters in source order — position (when given), size, decorations,
theme, visibility, fullscreen. -/
def applyInitialSettings (s : WindowSettings) (w : Window) : Window :=
  let w1 :=
    match s.position with
    | some p => w.force_set_outer_position p
    | none => w
  let w2 := w1.force_set_outer_size s.size
  let w3 := w2.force_set_decorations s.decorations
  let w4 := w3.force_set_theme s.theme
  let w5 := w4.force_set_visibility s.visibility
  w5.force_set_fullscreen s.fullscreen

/-- `Window::new` after the platform thread hands the window back
(window.rs:189-203): apply the initial settings, then set the stage to
`Ready`. -/
def construct (s : WindowSettings) (env : NativeEnv) : Window :=
  let w := applyInitialSettings s (initialWindow s env)
  { w with state := { w.state with stage := Stage.ready } }

-- OPERATIONS (for lifecycle claims)

/-- The consumer-side operations on a window handle. -/
inductive Op
  | closeOp
  | iterOp
  | nextMsgOp
  | dropOp
  deriving DecidableEq

/-- Apply one operation to the handle. -/
def applyOp (w : Window) : Op → Window
  | Op.closeOp => w.close
  | Op.iterOp => w.iter
  | Op.nextMsgOp => w.next_message_state
  | Op.dropOp => w.dropWindow

/-- Apply a sequence of operations. -/
def applyOps (w : Window) : List Op → Window
  | [] => w
  | o :: os => applyOps (applyOp w o) os

/-- The position of a stage in the lifecycle order
`Setup, Ready, Looping, Closing, ExitLoop`. -/
def stageIdx : Stage → Nat
  | Stage.setup => 0
  | Stage.ready => 1
  | Stage.looping => 2
  | Stage.closing => 3
  | Stage.exitLoop => 4

/-- The stage after the first `k` operations of `ops`. -/
def stageAt (w : Window) (ops : List Op) (k : Nat) : Stage :=
  (applyOps w (ops.take k)).state.stage

/-- The `k`-th operation moves the stage into `Closing`. -/
def entersClosingAt (w : Window) (ops : List Op) (k : Nat) : Prop :=
  stageAt w ops k ≠ Stage.closing ∧ stageAt w ops (k + 1) = Stage.closing

-- CONCURRENT MAILBOX MODEL (window.rs:294-323 with the consumer loop of
-- window.rs:342-371; `SyncData` waits and the window procedure are modelled
-- from spec §4.2)

/-- Program counter of the platform thread running `Window::message_pump`
(window.rs:294-323): check whether the mailbox is occupied; if so wait on
`next_frame`; replace the mailbox with `Loop(GetMessage)`; signal
`new_message`; wait on `next_frame`; block in `GetMessageW`. -/
inductive PumpPc
  | top
  | waitTop
  | replaceMsg
  | signalNew
  | waitFrame
  | getMsg
  deriving DecidableEq

/-- Program counter of the consumer thread running one `next_message` cycle
in `Looping` with `Flow::Wait` (window.rs:342-357): signal `next_frame`, wait
on `new_message` and clear it, take the mailbox value. -/
inductive ConsPc
  | signal
  | waitNew
  | takeMsg
  deriving DecidableEq

/-- Joint state of the two threads: the single-slot mailbox, the two gate
booleans, the (constant, `Looping`) stage, both program counters, the
messages the consumer has taken so far, and the instrumentation recording
every write that found the mailbox still occupied (old value, new value). -/
structure Sys where
  message : Option Message
  new_message : Bool
  next_frame : Bool
  stage : Stage
  pump : PumpPc
  cons : ConsPc
  taken : List Message
  overwrites : List (Message × Message)
  deriving DecidableEq

/-- Write `m` into the mailbox, recording an overwrite when the previous
value had not been taken. -/
def Sys.write (s : Sys) (m : Message) : Sys :=
  { s with
    message := some m
    overwrites := s.overwrites ++
      (match s.message with
       | some old => [(old, m)]
       | none => []) }

/-- One step of the platform thread in `message_pump`.  The two waits follow
the spec §4.2 wait-while pattern with an escape once the stage is `ExitLoop`
(window.rs:302, 311); a blocked wait leaves the state unchanged. -/
def pumpStep (s : Sys) : Sys :=
  match s.pump with
  | PumpPc.top =>
    if s.message.isSome then { s with pump := PumpPc.waitTop }
    else { s with pump := PumpPc.replaceMsg }
  | PumpPc.waitTop =>
    if s.next_frame || s.stage = Stage.exitLoop then
      { s with next_frame := false, pump := PumpPc.replaceMsg }
    else s
  | PumpPc.replaceMsg =>
    { s.write (Message.loopMsg LoopMessage.getMessage) with pump := PumpPc.signalNew }
  | PumpPc.signalNew => { s with new_message := true, pump := PumpPc.waitFrame }
  | PumpPc.waitFrame =>
    if s.next_frame || s.stage = Stage.exitLoop then
      { s with next_frame := false, pump := PumpPc.getMsg }
    else s
  | PumpPc.getMsg => s

/-- Modelled from the spec (§4.2 step 2, the window procedure file is
absent): while the platform thread blocks in `GetMessageW`, a native event is
retrieved, translated into the mailbox and `new_message` is signalled;
`GetMessageW` then returns and `message_pump` loops back to its top. -/
def arrive (m : Message) (s : Sys) : Sys :=
  if s.pump = PumpPc.getMsg then
    { s.write m with new_message := true, pump := PumpPc.top }
  else s

/-- One step of the consumer thread (`next_message` cycle in `Looping`,
`Flow::Wait`): the `next_frame` signal comes first (window.rs:345), the
mailbox take last (window.rs:334-339). -/
def consStep (s : Sys) : Sys :=
  match s.cons with
  | ConsPc.signal => { s with next_frame := true, cons := ConsPc.waitNew }
  | ConsPc.waitNew =>
    if s.new_message then { s with new_message := false, cons := ConsPc.takeMsg }
    else s
  | ConsPc.takeMsg =>
    { s with
      message := none
      taken := s.taken ++ [s.message.getD (Message.loopMsg LoopMessage.empty)]
      cons := ConsPc.signal }

/-- A scheduling choice: run the platform thread, run the consumer thread, or
deliver a native event while the platform thread blocks in `GetMessageW`. -/
inductive Who
  | pump
  | consumer
  | event (m : Message)
  deriving DecidableEq

/-- Execute a schedule. -/
def runSys : Sys → List Who → Sys
  | s, [] => s
  | s, Who.pump :: rest => runSys (pumpStep s) rest
  | s, Who.consumer :: rest => runSys (consStep s) rest
  | s, Who.event m :: rest => runSys (arrive m s) rest

/-- Initial joint state: empty mailbox, both gates down, stage `Looping`,
platform thread at the top of `message_pump`, consumer about to call
`next_message`. -/
def initSys : Sys :=
  { message := none
    new_message := false
    next_frame := false
    stage := Stage.looping
    pump := PumpPc.top
    cons := ConsPc.signal
    taken := []
    overwrites := [] }

/-- The interleaving that loses an event: the pump publishes the
`Loop(GetMessage)` sentinel and the consumer takes it; a native `Moved` event
is translated into the mailbox; the consumer signals `next_frame` for its
next call, and the scheduler runs the pump — woken by that signal — through
its mailbox replace before the consumer reaches its take. -/
def lostEventSchedule : List Who :=
  [Who.pump, Who.pump, Who.pump, Who.consumer, Who.pump, Who.consumer,
   Who.consumer, Who.event Message.moved, Who.pump, Who.consumer, Who.pump, Who.pump]

-- SHARED LEMMAS

@[simp]
theorem post_state (w : Window) (c : Command) : (w.post c).state = w.state := rfl

@[simp]
theorem post_env (w : Window) (c : Command) : (w.post c).env = w.env := rfl

@[simp]
theorem post_message (w : Window) (c : Command) : (w.post c).message = w.message := rfl

@[simp]
theorem post_new_message (w : Window) (c : Command) : (w.post c).new_message = w.new_message := rfl

@[simp]
theorem post_effects (w : Window) (c : Command) :
    (w.post c).effects = w.effects ++ [Effect.posted c] := rfl

@[simp]
theorem signal_next_frame_state (w : Window) : w.signal_next_frame.state = w.state := rfl

@[simp]
theorem signal_next_frame_env (w : Window) : w.signal_next_frame.env = w.env := rfl

@[simp]
theorem signal_next_frame_message (w : Window) : w.signal_next_frame.message = w.message := rfl

@[simp]
theorem signal_next_frame_new_message (w : Window) :
    w.signal_next_frame.new_message = w.new_message := rfl

@[simp]
theorem signal_next_frame_effects (w : Window) :
    w.signal_next_frame.effects = w.effects := rfl

@[simp]
theorem exit_loop_stage (w : Window) : w.exit_loop.state.stage = Stage.exitLoop := rfl

@[simp]
theorem exit_loop_effects (w : Window) : w.exit_loop.effects = w.effects := rfl

theorem take_message_took {w : Window} {m : Message} {w2 : Window}
    (h : w.take_message = TakeResult.took m w2) :
    m = w.message.getD (Message.loopMsg LoopMessage.empty) ∧
      w2.state = w.state ∧ w2.env = w.env ∧ w2.effects = w.effects ∧ w2.message = none := by
  unfold Window.take_message at h
  split at h
  · split at h
    · cases h
      exact ⟨rfl, rfl, rfl, rfl, rfl⟩
    · cases h
  · cases h
    exact ⟨rfl, rfl, rfl, rfl, rfl⟩

theorem take_message_poll {w : Window} (h : w.state.flow = Flow.poll) :
    w.take_message =
      TakeResult.took (w.message.getD (Message.loopMsg LoopMessage.empty))
        { w with message := none } := by
  unfold Window.take_message
  rw [h]

theorem next_message_exit_loop {w : Window} (h : w.state.stage = Stage.exitLoop) :
    w.next_message = NextResult.done none w.signal_next_frame := by
  unfold Window.next_message
  rw [h]

theorem pollRun_exit_loop {w : Window} (h : w.state.stage = Stage.exitLoop) :
    ∀ n : Nat, pollRun w n = List.replicate n none := by
  intro n
  induction n generalizing w with
  | zero => rfl
  | succ n ih =>
    rw [pollRun, next_message_exit_loop h]
    show none :: pollRun w.signal_next_frame n = List.replicate (n + 1) none
    rw [ih (w := w.signal_next_frame) (by simpa using h), List.replicate_succ]

theorem close_stage {w : Window} :
    w.close.state.stage = Stage.closing ∨ w.close = w := by
  unfold Window.close
  split
  · exact Or.inr rfl
  · exact Or.inl rfl

@[simp]
theorem close_effects (w : Window) : w.close.effects = w.effects := by
  unfold Window.close
  split <;> rfl

theorem stageIdx_le_four (st : Stage) : stageIdx st ≤ 4 := by
  cases st <;> simp [stageIdx]

theorem stageIdx_le_applyOp (w : Window) (o : Op) :
    stageIdx w.state.stage ≤ stageIdx (applyOp w o).state.stage := by
  cases o with
  | closeOp =>
    show stageIdx w.state.stage ≤ stageIdx w.close.state.stage
    unfold Window.close Window.is_closing
    split
    · exact Nat.le_refl _
    · next hcl =>
      simp only [Bool.or_eq_true, decide_eq_true_eq, not_or] at hcl
      cases hst : w.state.stage
      · simp [stageIdx]
      · simp [stageIdx]
      · simp [stageIdx]
      · exact absurd hst hcl.1
      · exact absurd hst hcl.2
  | iterOp =>
    show stageIdx w.state.stage ≤ stageIdx w.iter.state.stage
    unfold Window.iter
    split
    · next hst => rw [hst]; simp [stageIdx]
    · exact Nat.le_refl _
  | dropOp =>
    show stageIdx w.state.stage ≤ stageIdx w.dropWindow.state.stage
    unfold Window.dropWindow
    rw [post_state, exit_loop_stage]
    exact stageIdx_le_four _
  | nextMsgOp =>
    show stageIdx w.state.stage ≤ stageIdx w.next_message_state.state.stage
    unfold Window.next_message_state Window.next_message
    cases hst : w.state.stage with
    | setup => simp; rw [hst]
    | ready => simp; rw [hst]
    | exitLoop => simp; rw [hst]
    | looping =>
      simp only
      cases ht : w.signal_next_frame.take_message with
      | blocked => simp [hst]
      | took m w2 =>
        have hw2 : w2.state = w.state := by
          have := (take_message_took ht).2.1
          simpa using this
        simp only
        split
        · rcases close_stage (w := w2) with hc | hc
          · rw [hc]; simp [stageIdx]
          · rw [hc, hw2, hst]
        · rw [hw2, hst]
    | closing =>
      simp only
      cases ht : w.signal_next_frame.take_message with
      | blocked => simp [hst]
      | took m w2 =>
        simp only [exit_loop_stage, hst]
        simp [stageIdx]

theorem applyOps_append (w : Window) (a b : List Op) :
    applyOps w (a ++ b) = applyOps (applyOps w a) b := by
  induction a generalizing w with
  | nil => rfl
  | cons o os ih => simp [applyOps, ih]

theorem stageIdx_le_applyOps (w : Window) (ops : List Op) :
    stageIdx w.state.stage ≤ stageIdx (applyOps w ops).state.stage := by
  induction ops generalizing w with
  | nil => exact Nat.le_refl _
  | cons o os ih =>
    exact Nat.le_trans (stageIdx_le_applyOp w o) (ih (applyOp w o))

theorem stageAt_mono (w : Window) (ops : List Op) {i j : Nat} (h : i ≤ j) :
    stageIdx (stageAt w ops i) ≤ stageIdx (stageAt w ops j) := by
  unfold stageAt
  have : ops.take j = ops.take i ++ (ops.drop i).take (j - i) := by
    rw [← List.take_add]
    congr 1
    omega
  rw [this, applyOps_append]
  exact stageIdx_le_applyOps _ _

theorem stage_of_idx_ge_three {st : Stage} (h : 3 ≤ stageIdx st)
    (h2 : st ≠ Stage.closing) : st = Stage.exitLoop := by
  cases st <;> simp_all [stageIdx]

theorem two_le_stageIdx {st : Stage} (h : 2 ≤ stageIdx st) :
    st = Stage.looping ∨ st = Stage.closing ∨ st = Stage.exitLoop := by
  cases st <;> simp_all [stageIdx]

@[simp]
theorem close_flow (w : Window) : w.close.state.flow = w.state.flow := by
  unfold Window.close
  split <;> rfl

@[simp]
theorem close_message (w : Window) : w.close.message = w.message := by
  unfold Window.close
  split <;> rfl

theorem pollRun_succ (w : Window) (n : Nat) :
    pollRun w (n + 1) =
      match w.next_message with
      | NextResult.blocked => []
      | NextResult.done r w1 => r :: pollRun w1 n := rfl

theorem take_message_poll_eq {w : Window} (hf : w.state.flow = Flow.poll) :
    w.take_message =
      TakeResult.took (w.message.getD (Message.loopMsg LoopMessage.empty))
        { w with message := none } :=
  take_message_poll hf

theorem next_message_closing_poll {w : Window} (hs : w.state.stage = Stage.closing)
    (hf : w.state.flow = Flow.poll) :
    w.next_message =
      NextResult.done (some (Message.loopMsg LoopMessage.exit))
        ({ w.signal_next_frame with message := none }).exit_loop := by
  have hf1 : w.signal_next_frame.state.flow = Flow.poll := by simpa using hf
  simp only [Window.next_message, hs]
  rw [take_message_poll hf1]

theorem resolveTheme_ne_auto (env : NativeEnv) (t : Theme) :
    resolveTheme env t ≠ Theme.auto := by
  cases t <;> simp [resolveTheme] <;> split <;> simp

theorem construct_spec (s : WindowSettings) (env : NativeEnv) :
    (construct s env).state.stage = Stage.ready ∧
      (construct s env).state.flow = s.flow ∧
      (construct s env).state.theme = resolveTheme env s.theme ∧
      (construct s env).state.style.visibility = s.visibility ∧
      (construct s env).message = none ∧
      (construct s env).env = env := by
  cases hp : s.position <;>
    simp [construct, applyInitialSettings, initialWindow, hp,
      Window.force_set_outer_position, Window.force_set_outer_size,
      Window.force_set_decorations, Window.force_set_theme,
      Window.force_set_visibility, Window.force_set_fullscreen, Window.post]

-- SAMPLE INPUTS (used by witnesses and counterexamples)

/-- A sample native environment: light system theme, dark mode supported. -/
def sampleEnv : NativeEnv :=
  { systemDarkMode := false
    darkModeSupported := true
    outerPos := { x := 0, y := 0 }
    outerSize := { width := 800, height := 600 } }

/-- Sample builder settings with `Flow::Poll` (mirroring the defaults in
`settings.rs`: title "Window", 800x600, visible, close_on_x). -/
def pollSettings : WindowSettings :=
  { title := "Window"
    size := { width := 800, height := 600 }
    position := none
    flow := Flow.poll
    theme := Theme.light
    visibility := Visibility.shown
    decorations := Visibility.shown
    fullscreen := none
    resizeable := true
    cursorMode := CursorMode.normal
    close_on_x := true }

/-- A sample window handle whose stage is `ExitLoop`. -/
def exitWindow : Window :=
  { state :=
      { title := "w"
        subtitle := ""
        theme := Theme.light
        style :=
          { visibility := Visibility.shown
            decorations := Visibility.shown
            fullscreen := none
            resizeable := true }
        cursor := { mode := CursorMode.normal, visibility := Visibility.shown }
        flow := Flow.poll
        close_on_x := true
        stage := Stage.exitLoop
        requested_redraw := false }
    message := none
    new_message := false
    next_frame := false
    env := sampleEnv
    effects := [] }

/-- A sample window handle in `Looping` with `Flow::Wait` and no pending
message. -/
def waitWindow : Window :=
  { exitWindow with
    state := { exitWindow.state with flow := Flow.wait, stage := Stage.looping } }

-- CLAIM THEOREMS

/-- C1: for every window reachable at a `next_message` call site,
`next_message` returns `None` exactly when the stage has reached `ExitLoop`:
(1) a completed call returns `None` iff the stage is `ExitLoop`; (2) once the
stage is `ExitLoop`, every subsequent call returns `None`; (3) `next_message`
is only reachable through iteration, and from the start of iteration the
stage stays in `Looping`/`Closing`/`ExitLoop` under every operation
sequence. -/
theorem c1_next_message_none_iff_exit_loop :
    (∀ (w : Window) (r : Option Message) (w1 : Window),
        (w.state.stage = Stage.looping ∨ w.state.stage = Stage.closing ∨
          w.state.stage = Stage.exitLoop) →
        w.next_message = NextResult.done r w1 →
        (r = none ↔ w.state.stage = Stage.exitLoop))
    ∧ (∀ (w : Window) (n : Nat), w.state.stage = Stage.exitLoop →
        pollRun w n = List.replicate n none)
    ∧ (∀ (s : WindowSettings) (env : NativeEnv) (ops : List Op),
        (applyOps ((construct s env).iter) ops).state.stage = Stage.looping ∨
        (applyOps ((construct s env).iter) ops).state.stage = Stage.closing ∨
        (applyOps ((construct s env).iter) ops).state.stage = Stage.exitLoop) := by
  refine ⟨?_, ?_, ?_⟩
  · intro w r w1 hs h
    unfold Window.next_message at h
    rcases hs with hs | hs | hs
    · cases ht : w.signal_next_frame.take_message with
      | blocked =>
        simp only [hs, ht] at h
        cases h
      | took m w2 =>
        simp only [hs, ht] at h
        cases h
        simp [hs]
    · cases ht : w.signal_next_frame.take_message with
      | blocked =>
        simp only [hs, ht] at h
        cases h
      | took m w2 =>
        simp only [hs, ht] at h
        cases h
        simp [hs]
    · simp only [hs] at h
      cases h
      simp [hs]
  · intro w n hs
    exact pollRun_exit_loop hs n
  · intro s env ops
    have h1 : (construct s env).state.stage = Stage.ready := (construct_spec s env).1
    have h2 : ((construct s env).iter).state.stage = Stage.looping := by
      unfold Window.iter
      rw [h1]
    have h3 : 2 ≤ stageIdx (applyOps ((construct s env).iter) ops).state.stage := by
      have := stageIdx_le_applyOps ((construct s env).iter) ops
      rw [h2] at this
      exact this
    exact two_le_stageIdx h3

/-- C1 witness: at the concrete `ExitLoop`-stage handle, the completed call
returns `None`. -/
theorem c1_witness : (none : Option Message) = none ↔ exitWindow.state.stage = Stage.exitLoop :=
  c1_next_message_none_iff_exit_loop.1 exitWindow none exitWindow.signal_next_frame
    (Or.inr (Or.inr rfl)) rfl

/-- C2: the claimed race freedom fails.  Under the schedule
`lostEventSchedule`, `message_pump`'s mailbox replace (window.rs:306-309) runs
while the mailbox still holds the undelivered `Moved` event published by the
window procedure — because `next_message` signals `next_frame`
(window.rs:345) before `take_message` runs, the pump can wake and write
first.  The overwrite is recorded, the consumer never receives `Moved`, and
the mailbox afterwards holds the `Loop(GetMessage)` sentinel instead. -/
theorem c2_mailbox_overwrite :
    (runSys initSys lostEventSchedule).overwrites =
      [(Message.moved, Message.loopMsg LoopMessage.getMessage)] ∧
    (runSys initSys lostEventSchedule).taken = [Message.loopMsg LoopMessage.getMessage] ∧
    Message.moved ∉ (runSys initSys lostEventSchedule).taken ∧
    (runSys initSys lostEventSchedule).message = some (Message.loopMsg LoopMessage.getMessage) := by
  decide

/-- C3 counterexample: for a `Flow::Poll` window closed before iterating, the
sequence delivered by `next_message` is `Some(Loop(Exit))` then `None` — not
`Closing`, `Closed`, `None` as claimed; neither `Closing` nor `Closed` is
ever delivered. -/
theorem c3_counterexample :
    pollRun ((construct pollSettings sampleEnv).close) 2 =
      [some (Message.loopMsg LoopMessage.exit), none] ∧
    some Message.closing ∉ pollRun ((construct pollSettings sampleEnv).close) 2 ∧
    some Message.closed ∉ pollRun ((construct pollSettings sampleEnv).close) 2 := by
  decide

/-- C3 (amended): for any window constructed with `Flow::Poll` and closed
programmatically before iterating, repeated `next_message` calls deliver
exactly `Some(Loop(Exit))` and then `None` forever; `CloseRequested` is never
emitted. -/
theorem c3_poll_close_sequence (s : WindowSettings) (env : NativeEnv) (n : Nat)
    (hf : s.flow = Flow.poll) :
    pollRun ((construct s env).close) (n + 1) =
      some (Message.loopMsg LoopMessage.exit) :: List.replicate n none ∧
    some Message.closeRequested ∉ pollRun ((construct s env).close) (n + 1) := by
  have hstage : (construct s env).state.stage = Stage.ready := (construct_spec s env).1
  have hclose : ((construct s env).close).state.stage = Stage.closing := by
    unfold Window.close Window.is_closing
    rw [hstage]
    simp
  have hflow : ((construct s env).close).state.flow = Flow.poll := by
    rw [close_flow, (construct_spec s env).2.1, hf]
  have hseq : pollRun ((construct s env).close) (n + 1) =
      some (Message.loopMsg LoopMessage.exit) :: List.replicate n none := by
    rw [pollRun_succ, next_message_closing_poll hclose hflow]
    show some (Message.loopMsg LoopMessage.exit) ::
        pollRun (({ ((construct s env).close).signal_next_frame with
          message := none } : Window)).exit_loop n =
      some (Message.loopMsg LoopMessage.exit) :: List.replicate n none
    rw [pollRun_exit_loop (exit_loop_stage _) n]
  refine ⟨hseq, ?_⟩
  rw [hseq]
  simp [List.mem_replicate]

/-- C3 witness: the concrete `Flow::Poll` run. -/
theorem c3_witness :
    pollRun ((construct pollSettings sampleEnv).close) 3 =
      some (Message.loopMsg LoopMessage.exit) :: List.replicate 2 none ∧
    some Message.closeRequested ∉ pollRun ((construct pollSettings sampleEnv).close) 3 :=
  c3_poll_close_sequence pollSettings sampleEnv 2 rfl

/-- C5: `take_message` follows the window's `Flow`: under `Wait` it blocks
while `new_message` is down, and once the gate is up it clears the gate and
takes the mailbox value; under `Poll` with no message ready it immediately
returns the `Loop(Empty)` placeholder. -/
theorem c5_take_message_flow :
    (∀ w : Window, w.state.flow = Flow.wait → w.new_message = false →
        w.take_message = TakeResult.blocked)
    ∧ (∀ w : Window, w.state.flow = Flow.wait → w.new_message = true →
        w.take_message =
          TakeResult.took (w.message.getD (Message.loopMsg LoopMessage.empty))
            { w with new_message := false, message := none })
    ∧ (∀ w : Window, w.state.flow = Flow.poll → w.message = none →
        w.take_message =
          TakeResult.took (Message.loopMsg LoopMessage.empty) { w with message := none }) := by
  refine ⟨?_, ?_, ?_⟩
  · intro w hf hn
    unfold Window.take_message
    rw [hf, hn]
    rfl
  · intro w hf hn
    unfold Window.take_message
    rw [hf, hn]
    rfl
  · intro w hf hm
    rw [take_message_poll hf, hm]
    rfl

/-- C5 witness: the concrete `Flow::Wait` handle with the gate down blocks. -/
theorem c5_witness : waitWindow.take_message = TakeResult.blocked :=
  c5_take_message_flow.1 waitWindow rfl rfl

/-- C8: a second `close()` while the window is already closing is a no-op:
`close` is idempotent, and `close` never enqueues any command at all. -/
theorem c8_close_idempotent (w : Window) :
    w.close.close = w.close ∧ w.close.effects = w.effects := by
  have h : w.close.is_closing = true := by
    unfold Window.close Window.is_closing
    split
    · next hcl => exact hcl
    · simp
  constructor
  · show (if w.close.is_closing then w.close
      else { w.close with state := { w.close.state with stage := Stage.closing } }) = w.close
    rw [h]
    rfl
  · exact close_effects w

/-- C10: the theme stored in shared state is never `Auto`: `force_set_theme`
always stores the resolved theme; `set_theme` preserves the invariant;
construction establishes it; `Auto` resolves from the system dark-mode
setting, and a requested `Dark` is downgraded to `Light` when dark mode is
unsupported. -/
theorem c10_theme_resolved :
    (∀ (w : Window) (t : Theme), (w.force_set_theme t).state.theme ≠ Theme.auto)
    ∧ (∀ (w : Window) (t : Theme), w.state.theme ≠ Theme.auto →
        (w.set_theme t).state.theme ≠ Theme.auto)
    ∧ (∀ (s : WindowSettings) (env : NativeEnv),
        (construct s env).state.theme ≠ Theme.auto)
    ∧ (∀ env : NativeEnv,
        resolveTheme env Theme.auto = if env.systemDarkMode then Theme.dark else Theme.light)
    ∧ (∀ env : NativeEnv, env.darkModeSupported = false →
        resolveTheme env Theme.dark = Theme.light) := by
  refine ⟨?_, ?_, ?_, ?_, ?_⟩
  · intro w t
    exact resolveTheme_ne_auto w.env t
  · intro w t h
    unfold Window.set_theme
    split
    · exact h
    · exact resolveTheme_ne_auto w.env t
  · intro s env
    rw [(construct_spec s env).2.2.1]
    exact resolveTheme_ne_auto env s.theme
  · intro env
    rfl
  · intro env h
    simp [resolveTheme, h]

/-- C10 witness: setting `Auto` on the concrete handle stores a concrete
theme. -/
theorem c10_witness : (waitWindow.set_theme Theme.auto).state.theme ≠ Theme.auto :=
  c10_theme_resolved.2.1 waitWindow Theme.auto (by decide)

/-- C4 counterexample: `Closing` can be entered from `Ready`, not only from
`Looping` — a freshly constructed window is in `Ready`, and `close()` moves
it straight to `Closing`. -/
theorem c4_counterexample :
    (construct pollSettings sampleEnv).state.stage = Stage.ready ∧
    (applyOp (construct pollSettings sampleEnv) Op.closeOp).state.stage = Stage.closing := by
  decide

/-- C4 (amended): under every operation sequence the stage only moves
forward in the order `Setup, Ready, Looping, Closing, ExitLoop` (this
revision has no `Destroyed` stage); `Closing` is entered at most once and
only through a close request — either a direct `close()` call, or
`next_message` consuming `CloseRequested` in `Looping` with `close_on_x`
set (which may also happen from `Setup` or `Ready`, not only from
`Looping`). -/
theorem c4_stage_forward :
    (∀ (w : Window) (o : Op),
        stageIdx w.state.stage ≤ stageIdx (applyOp w o).state.stage)
    ∧ (∀ (w : Window) (o : Op),
        w.state.stage ≠ Stage.closing → (applyOp w o).state.stage = Stage.closing →
        o = Op.closeOp ∨
          (o = Op.nextMsgOp ∧ w.state.stage = Stage.looping ∧
            w.message = some Message.closeRequested ∧ w.state.close_on_x = true))
    ∧ (∀ (w : Window) (ops : List Op) (i j : Nat), i < j →
        entersClosingAt w ops i → ¬ entersClosingAt w ops j) := by
  refine ⟨stageIdx_le_applyOp, ?_, ?_⟩
  · intro w o h1 h2
    cases o with
    | closeOp => exact Or.inl rfl
    | iterOp =>
      exfalso
      simp only [applyOp] at h2
      unfold Window.iter at h2
      split at h2
      · simp at h2
      · exact h1 h2
    | dropOp =>
      exfalso
      simp only [applyOp] at h2
      unfold Window.dropWindow at h2
      rw [post_state, exit_loop_stage] at h2
      cases h2
    | nextMsgOp =>
      simp only [applyOp] at h2
      unfold Window.next_message_state Window.next_message at h2
      cases hst : w.state.stage with
      | closing => exact absurd hst h1
      | setup => simp [hst] at h2
      | ready => simp [hst] at h2
      | exitLoop => simp [hst] at h2
      | looping =>
        cases ht : w.signal_next_frame.take_message with
        | blocked =>
          exfalso
          simp only [hst, ht] at h2
          rw [signal_next_frame_state, hst] at h2
          cases h2
        | took m w2 =>
          have hm : m = w.message.getD (Message.loopMsg LoopMessage.empty) := by
            have := (take_message_took ht).1
            simpa using this
          have hw2st : w2.state = w.state := by
            have := (take_message_took ht).2.1
            simpa using this
          simp only [hst, ht] at h2
          by_cases hc1 : m = Message.closeRequested
          · by_cases hc2 : w2.state.close_on_x = true
            · refine Or.inr ⟨rfl, rfl, ?_, ?_⟩
              · rcases hmm : w.message with _ | mm
                · rw [hmm] at hm
                  simp at hm
                  rw [hm] at hc1
                  cases hc1
                · rw [hmm] at hm
                  simp at hm
                  rw [← hm, hc1]
              · rw [← hw2st]
                exact hc2
            · exfalso
              simp [hc1, hc2] at h2
              rw [hw2st, hst] at h2
              cases h2
          · exfalso
            simp [hc1] at h2
            rw [hw2st, hst] at h2
            cases h2
  · intro w ops i j hij hi hj
    have h1 : 3 ≤ stageIdx (stageAt w ops j) := by
      have hm := stageAt_mono w ops (show i + 1 ≤ j from hij)
      rw [hi.2] at hm
      exact hm
    have h3 : stageAt w ops j = Stage.exitLoop := stage_of_idx_ge_three h1 hj.1
    have h4 := stageAt_mono w ops (Nat.le_succ j)
    rw [h3, hj.2] at h4
    simp [stageIdx] at h4

/-- C4 witness: the concrete `Ready`-stage window entering `Closing` through
`close()`. -/
theorem c4_witness :
    Op.closeOp = Op.closeOp ∨
      (Op.closeOp = Op.nextMsgOp ∧
        (construct pollSettings sampleEnv).state.stage = Stage.looping ∧
        (construct pollSettings sampleEnv).message = some Message.closeRequested ∧
        (construct pollSettings sampleEnv).state.close_on_x = true) :=
  c4_stage_forward.2.1 (construct pollSettings sampleEnv) Op.closeOp (by decide) (by decide)

/-- C6 counterexample: `set_theme` with a value that differs from the cached
theme enqueues no `Command` at all (the source applies the dark-mode
attribute directly instead of posting `SetTheme`), contradicting the claim
that every setter enqueues the corresponding Command. -/
theorem c6_counterexample :
    Theme.dark ≠ (construct pollSettings sampleEnv).state.theme ∧
    ((construct pollSettings sampleEnv).set_theme Theme.dark).postedCommands =
      (construct pollSettings sampleEnv).postedCommands := by
  decide

/-- C6 (amended): `set_visibility` (and its siblings) updates the cached
field and posts the Command when the value differs, and does neither when it
is unchanged; `set_outer_position` compares against the live native
rectangle and only posts a Command, updating no shared state;
`set_theme` stores the resolved theme and applies dark mode directly via
DWM, posting no Command; all are no-ops when the value is unchanged. -/
theorem c6_setters :
    (∀ (w : Window) (v : Visibility), v ≠ w.state.style.visibility →
        (w.set_visibility v).state.style.visibility = v ∧
        (w.set_visibility v).effects = w.effects ++ [Effect.posted (Command.setVisibility v)])
    ∧ (∀ (w : Window) (v : Visibility), v = w.state.style.visibility →
        w.set_visibility v = w)
    ∧ (∀ (w : Window) (p : Position), p.as_physical ≠ w.env.outerPos →
        (w.set_outer_position p).state = w.state ∧
        (w.set_outer_position p).effects = w.effects ++ [Effect.posted (Command.setPosition p)])
    ∧ (∀ (w : Window) (p : Position), p.as_physical = w.env.outerPos →
        w.set_outer_position p = w)
    ∧ (∀ (w : Window) (t : Theme), t ≠ w.state.theme →
        (w.set_theme t).state.theme = resolveTheme w.env t ∧
        (w.set_theme t).postedCommands = w.postedCommands ∧
        (w.set_theme t).effects =
          w.effects ++ [Effect.dwmSetDarkMode (decide (resolveTheme w.env t = Theme.dark))])
    ∧ (∀ (w : Window) (t : Theme), t = w.state.theme → w.set_theme t = w) := by
  refine ⟨?_, ?_, ?_, ?_, ?_, ?_⟩
  · intro w v h
    unfold Window.set_visibility
    rw [if_neg h]
    exact ⟨rfl, rfl⟩
  · intro w v h
    unfold Window.set_visibility
    rw [if_pos h]
  · intro w p h
    unfold Window.set_outer_position
    rw [if_neg h]
    exact ⟨rfl, rfl⟩
  · intro w p h
    unfold Window.set_outer_position
    rw [if_pos h]
  · intro w t h
    unfold Window.set_theme
    rw [if_neg h]
    refine ⟨rfl, ?_, rfl⟩
    unfold Window.postedCommands Window.force_set_theme
    simp [List.filterMap_append]
  · intro w t h
    unfold Window.set_theme
    rw [if_pos h]

/-- C6 witness: setting a differing visibility on the concrete handle updates
the cached field and posts the Command. -/
theorem c6_witness :
    (waitWindow.set_visibility Visibility.hidden).state.style.visibility = Visibility.hidden ∧
    (waitWindow.set_visibility Visibility.hidden).effects =
      waitWindow.effects ++ [Effect.posted (Command.setVisibility Visibility.hidden)] :=
  c6_setters.1 waitWindow Visibility.hidden (by decide)

/-- C7: after the platform thread hands the window back, the initial
settings are applied through the force-setter path in the order position,
size, decorations, theme, visibility, fullscreen (visible on the native
interaction trace; the theme is the direct dark-mode call), the stage is
untouched by the whole initial-settings block, and only afterwards does
`construct` set the stage to `Ready` (adding no further native
interaction). -/
theorem c7_construction_order (s : WindowSettings) (env : NativeEnv) (w : Window) :
    (applyInitialSettings s w).state.stage = w.state.stage ∧
    (applyInitialSettings s w).effects = w.effects ++
      ((match s.position with
        | some p => [Effect.posted (Command.setPosition p)]
        | none => []) ++
       [Effect.posted (Command.setSize s.size),
        Effect.posted (Command.setDecorations s.decorations),
        Effect.dwmSetDarkMode (decide (resolveTheme w.env s.theme = Theme.dark)),
        Effect.posted (Command.setVisibility s.visibility),
        Effect.posted (Command.setFullscreen s.fullscreen)]) ∧
    (construct s env).state.stage = Stage.ready ∧
    (construct s env).effects = (applyInitialSettings s (initialWindow s env)).effects := by
  refine ⟨?_, ?_, (construct_spec s env).1, rfl⟩
  · cases hp : s.position <;>
      simp [applyInitialSettings, hp, Window.force_set_outer_position,
        Window.force_set_outer_size, Window.force_set_decorations, Window.force_set_theme,
        Window.force_set_visibility, Window.force_set_fullscreen, Window.post]
  · cases hp : s.position <;>
      simp [applyInitialSettings, hp, Window.force_set_outer_position,
        Window.force_set_outer_size, Window.force_set_decorations, Window.force_set_theme,
        Window.force_set_visibility, Window.force_set_fullscreen, Window.post]

/-- C9 counterexample: on a freshly constructed window that is already
`Shown`, calling `set_visibility(Shown)` twice enqueues zero commands, not
one — the first call is already a no-op. -/
theorem c9_counterexample :
    (construct pollSettings sampleEnv).set_visibility Visibility.shown =
      construct pollSettings sampleEnv ∧
    (((construct pollSettings sampleEnv).set_visibility Visibility.shown).set_visibility
        Visibility.shown).effects = (construct pollSettings sampleEnv).effects := by
  decide

/-- C9 (amended): when the requested visibility differs from the cached one,
calling `set_visibility` with it twice in a row enqueues exactly one
`SetVisibility` command — the first call enqueues it and the second call is
a no-op. -/
theorem c9_set_visibility_once (w : Window) (v : Visibility)
    (h : v ≠ w.state.style.visibility) :
    ((w.set_visibility v).set_visibility v).effects =
      w.effects ++ [Effect.posted (Command.setVisibility v)] ∧
    (w.set_visibility v).set_visibility v = w.set_visibility v := by
  have h1 : w.set_visibility v = w.force_set_visibility v := by
    unfold Window.set_visibility
    rw [if_neg h]
  have h2 : v = (w.force_set_visibility v).state.style.visibility := rfl
  have h3 : (w.force_set_visibility v).set_visibility v = w.force_set_visibility v := by
    unfold Window.set_visibility
    rw [if_pos h2]
  refine ⟨?_, ?_⟩
  · rw [h1, h3]
    rfl
  · rw [h1]
    exact h3

/-- C9 witness: hiding the concrete (shown) handle twice posts exactly one
command. -/
theorem c9_witness :
    ((waitWindow.set_visibility Visibility.hidden).set_visibility Visibility.hidden).effects =
      waitWindow.effects ++ [Effect.posted (Command.setVisibility Visibility.hidden)] ∧
    (waitWindow.set_visibility Visibility.hidden).set_visibility Visibility.hidden =
      waitWindow.set_visibility Visibility.hidden :=
  c9_set_visibility_once waitWindow Visibility.hidden (by decide)

end Ezwin
